import Mathlib

/-!
Verification of the structure-learning core of SPFlow
(`src/spn/algorithms/StructureLearning.py`).

The embedding below translates the two components of that file:

* `next_operation` — the operation-selection policy produced by
  `get_next_operation(min_instances_slice)`;
* `learn_structure` — the worklist-driven tree assembler, modelled as a
  step function `step` on an explicit builder state (an arena of nodes
  plus a FIFO task queue), iterated with fuel by `run`.

Data slices are modelled as lists of rows of integers (exact arithmetic
in place of numpy floats); mixture proportions are rationals.  The node
heap is an arena: a Python object reference becomes an index into the
arena, and the synthetic root wrapper is the node at index 0.  The
external collaborators (`split_rows`, `split_cols`, `create_leaf`, the
policy, and the post-processing functions) are parameters, exactly as in
the Python signature or, for the post-processing ones, as opaque
boundary functions per the specification.
-/

namespace SPFlow

/-- The `Operation` enum of StructureLearning.py. -/
inductive Operation where
  | CREATE_LEAF
  | SPLIT_COLUMNS
  | SPLIT_ROWS
  | NAIVE_FACTORIZATION
  | REMOVE_UNINFORMATIVE_FEATURES
deriving DecidableEq, Repr

/-- A data slice: a list of rows, each row a list of integer entries
(exact arithmetic standing in for numpy floats). -/
abbrev DataMatrix := List (List ℤ)

/-- `data.shape[0]`: the number of rows of a slice. -/
def nRows (data : DataMatrix) : Nat := data.length

/-- `data.shape[1]`: the number of columns of a slice (the length of its
first row; rows of a well-formed slice all have this length). -/
def nCols (data : DataMatrix) : Nat := (data.headD []).length

/-- A well-formed slice: every row has exactly `nCols data` entries. -/
def WellFormed (data : DataMatrix) : Prop :=
  ∀ r ∈ data, r.length = nCols data

/-- Column `j` of a slice (entries are read with default `0`; on a
well-formed slice an in-range `j` never hits the default). -/
def getCol (data : DataMatrix) (j : Nat) : List ℤ :=
  data.map (fun r => r.getD j 0)

/-- Models `np.var(column) == 0` under exact arithmetic: a column has
zero variance iff it is nonempty and all its entries are equal.
(`np.var` of an empty column is NaN, which is not equal to 0.) -/
def colConstant : List ℤ → Bool
  | [] => false
  | x :: xs => xs.all (fun y => y == x)

/-- Models the zero-variance bookkeeping of `next_operation`:
`np.arange(len(scope))[np.var(data[:, 0:len(scope)], 0) == 0].tolist()`,
i.e. the scope-relative positions, in ascending order, of the columns
among the first `k = len(scope)` whose variance is zero.  (`np.sum` of
the boolean mask is the length of this list.) -/
def zero_variance_cols (data : DataMatrix) (k : Nat) : List Nat :=
  (List.range k).filter (fun j => colConstant (getCol data j))

/-- The policy `next_operation` returned by
`get_next_operation(min_instances_slice)` (StructureLearning.py lines
32-74), translated branch by branch. -/
def next_operation (min_instances_slice : Nat) (data : DataMatrix) (scope : List Nat)
    (no_clusters no_independencies is_first cluster_first cluster_univariate : Bool) :
    Operation × Option (List Nat) :=
  if scope.length = 1 then
    if nRows data ≤ min_instances_slice ∨ no_clusters then
      (Operation.CREATE_LEAF, none)
    else
      if cluster_univariate then (Operation.SPLIT_ROWS, none)
      else (Operation.CREATE_LEAF, none)
  else
    let uninformative := zero_variance_cols data scope.length
    if 0 < uninformative.length then
      if uninformative.length = nCols data then (Operation.NAIVE_FACTORIZATION, none)
      else (Operation.REMOVE_UNINFORMATIVE_FEATURES, some uninformative)
    else if nRows data ≤ min_instances_slice ∨ (no_clusters ∧ no_independencies) then
      (Operation.NAIVE_FACTORIZATION, none)
    else if no_independencies then (Operation.SPLIT_ROWS, none)
    else if no_clusters then (Operation.SPLIT_COLUMNS, none)
    else if is_first then
      if cluster_first then (Operation.SPLIT_ROWS, none)
      else (Operation.SPLIT_COLUMNS, none)
    else (Operation.SPLIT_COLUMNS, none)

/-- `default_slicer(data, cols)` (lines 77-81): carve out the columns at
the given positions, preserving two-dimensional shape (the Python
single-column `reshape((-1, 1))` special case produces the same list of
one-entry rows as the general case does here). -/
def default_slicer (data : DataMatrix) (cols : List Nat) : DataMatrix :=
  data.map (fun r => cols.map (fun c => r.getD c 0))

/-- The node variants of `spn.structure.Base`; `L` is the opaque type of
leaves returned by the `create_leaf` collaborator. -/
inductive NodeKind (L : Type) where
  | sumNode
  | prodNode
  | leafNode (payload : L)
deriving DecidableEq

/-- An arena node: a `Sum` or `Product` node with its scope, child slots
(`none` is an unfilled placeholder) and, for `Sum` nodes, weights; or a
leaf carrying its opaque payload. -/
structure ANode (L : Type) where
  kind : NodeKind L
  scope : List Nat
  children : List (Option Nat)
  weights : List ℚ
deriving DecidableEq

/-- A worklist task (line 104): `(local_data, parent, children_pos,
scope, no_clusters, no_independencies)`, with the parent node given by
its arena index. -/
structure Task where
  local_data : DataMatrix
  parent : Nat
  children_pos : Nat
  scope : List Nat
  no_clusters : Bool
  no_independencies : Bool
deriving DecidableEq

/-- The builder state: the node arena (index 0 is the synthetic root
wrapper) and the FIFO worklist. -/
structure BState (L : Type) where
  nodes : List (ANode L)
  tasks : List Task
deriving DecidableEq

/-- The type of the policy argument of `learn_structure`. -/
abbrev PolicyFn :=
  DataMatrix → List Nat → Bool → Bool → Bool → Bool → Bool → Operation × Option (List Nat)

/-- The type of the `split_rows` / `split_cols` collaborators: a list of
`(data slice, scope, proportion)` triples. -/
abbrev SplitFn (Ctx : Type) :=
  DataMatrix → Ctx → List Nat → List (DataMatrix × List Nat × ℚ)

/-- The collaborators handed to `learn_structure`.  `split_rows`,
`split_cols`, `create_leaf`, `next_op` and `ds_context` are the Python
parameters of the same names. -/
structure Config (Ctx L : Type) where
  ds_context : Ctx
  split_rows : SplitFn Ctx
  split_cols : SplitFn Ctx
  create_leaf : DataMatrix → Ctx → List Nat → L
  next_op : PolicyFn
  /-- Modelled from the spec: `assign_ids` from `spn.structure.Base` is
  imported from outside `src/`; per §6 it mutates node identifiers in
  place, so it is modelled as an opaque function on a heap (arena) plus
  a root reference. -/
  assign_ids : List (ANode L) × Nat → List (ANode L) × Nat
  /-- Modelled from the spec: `Prune` from
  `spn.algorithms.TransformStructure` is imported from outside `src/`;
  per §6 it returns a possibly different, more compact root. -/
  prune : List (ANode L) × Nat → List (ANode L) × Nat
  /-- Modelled from the spec: `is_valid` from `spn.algorithms.Validity`
  is imported from outside `src/`; per §6 it returns `(bool, message)`. -/
  is_valid : List (ANode L) × Nat → Bool × String

variable {Ctx L : Type}

/-- `parent.children[children_pos] = node_id`: fill one child slot of an
arena node (a no-op on an out-of-range parent index). -/
def setChild (nodes : List (ANode L)) (pid pos cid : Nat) : List (ANode L) :=
  match nodes[pid]? with
  | none => nodes
  | some nd => nodes.set pid { nd with children := nd.children.set pos (some cid) }

/-- The policy invocation of the worklist loop (lines 106-108): flags
from the task, `is_first = (parent is root)` where the synthetic root is
arena index 0, and the `cluster_first` / `cluster_univariate` parameters
left at their defaults `True` / `False` (the call site never passes
them). -/
def taskOperation (cfg : Config Ctx L) (t : Task) : Operation × Option (List Nat) :=
  cfg.next_op t.local_data t.scope t.no_clusters t.no_independencies
    (t.parent == 0) true false

/-- One iteration of the worklist loop of `learn_structure` (lines
102-213): pop the head task, consult the policy, and either create a
node/leaf (filling the parent's slot and enqueuing follow-up tasks) or
re-enqueue the task with an escalated flag.  The identity on a state
with no tasks. -/
def step (cfg : Config Ctx L) (σ : BState L) : BState L :=
  match σ.tasks with
  | [] => σ
  | t :: rest =>
    match taskOperation cfg t with
    | (Operation.REMOVE_UNINFORMATIVE_FEATURES, op_params) =>
      -- lines 112-136
      let cols := op_params.getD []
      let newId := σ.nodes.length
      let node : ANode L :=
        ⟨NodeKind.prodNode, t.scope, List.replicate (cols.length + 1) none, []⟩
      -- rest_scope = list(set(range(len(scope))) - cols); CPython
      -- iterates a set of small naturals in ascending order.
      let rest_scope := (List.range t.scope.length).filter (fun j => !(cols.contains j))
      let next_final : Bool := rest_scope.length == 1
      let colTasks := cols.enum.map (fun p =>
        (⟨default_slicer t.local_data [p.2], newId, p.1, [t.scope.getD p.2 0],
          true, true⟩ : Task))
      let restTask : Task :=
        ⟨default_slicer t.local_data rest_scope, newId, cols.length, rest_scope,
         next_final, next_final⟩
      { nodes := setChild σ.nodes t.parent t.children_pos newId ++ [node],
        tasks := rest ++ colTasks ++ [restTask] }
    | (Operation.SPLIT_ROWS, _) =>
      -- lines 138-161
      let data_slices := cfg.split_rows t.local_data cfg.ds_context t.scope
      if data_slices.length = 1 then
        { σ with tasks :=
            rest ++ [{ t with no_clusters := true, no_independencies := false }] }
      else
        let newId := σ.nodes.length
        let node : ANode L :=
          ⟨NodeKind.sumNode, t.scope, List.replicate data_slices.length none,
           data_slices.map (fun s => s.2.2)⟩
        let newTasks := data_slices.enum.map (fun p =>
          (⟨p.2.1, newId, p.1, t.scope, false, false⟩ : Task))
        { nodes := setChild σ.nodes t.parent t.children_pos newId ++ [node],
          tasks := rest ++ newTasks }
    | (Operation.SPLIT_COLUMNS, _) =>
      -- lines 163-184
      let data_slices := cfg.split_cols t.local_data cfg.ds_context t.scope
      if data_slices.length = 1 then
        { σ with tasks :=
            rest ++ [{ t with no_clusters := false, no_independencies := true }] }
      else
        let newId := σ.nodes.length
        let node : ANode L :=
          ⟨NodeKind.prodNode, t.scope, List.replicate data_slices.length none, []⟩
        let newTasks := data_slices.enum.map (fun p =>
          (⟨p.2.1, newId, p.1, p.2.2.1, false, false⟩ : Task))
        { nodes := setChild σ.nodes t.parent t.children_pos newId ++ [node],
          tasks := rest ++ newTasks }
    | (Operation.NAIVE_FACTORIZATION, _) =>
      -- lines 186-199
      let newId := σ.nodes.length
      let node : ANode L :=
        ⟨NodeKind.prodNode, t.scope, List.replicate t.scope.length none, []⟩
      let newTasks := (List.range t.scope.length).map (fun col =>
        (⟨default_slicer t.local_data [col], newId, col, [t.scope.getD col 0],
          true, true⟩ : Task))
      { nodes := setChild σ.nodes t.parent t.children_pos newId ++ [node],
        tasks := rest ++ newTasks }
    | (Operation.CREATE_LEAF, _) =>
      -- lines 201-210; the leaf returned by the collaborator is opaque,
      -- its scope/children/weights fields are unused artefacts here.
      let newId := σ.nodes.length
      let node : ANode L :=
        ⟨NodeKind.leafNode (cfg.create_leaf t.local_data cfg.ds_context t.scope),
         [], [], []⟩
      { nodes := setChild σ.nodes t.parent t.children_pos newId ++ [node],
        tasks := rest }

/-- Iterate the worklist loop for `fuel` iterations (`step` is the
identity once the worklist is empty, so extra fuel is harmless). -/
def run (cfg : Config Ctx L) : Nat → BState L → BState L
  | 0, σ => σ
  | n + 1, σ => run cfg n (step cfg σ)

/-- The initial builder state (lines 93-100): a synthetic root `Product`
wrapper with a single unfilled placeholder child, and one seed task over
the whole dataset and the initial scope with both flags `False`. -/
def initState (dataset : DataMatrix) (scope : List Nat) : BState L :=
  { nodes := [⟨NodeKind.prodNode, [], [none], []⟩],
    tasks := [⟨dataset, 0, 0, scope, false, false⟩] }

/-- Line 96-97: the initial scope defaults to all columns in order. -/
def initial_scope_of (dataset : DataMatrix) (iscope : Option (List Nat)) : List Nat :=
  iscope.getD (List.range (nCols dataset))

/-- `learn_structure` (lines 84-222) after its argument assertions: seed
the worklist, drain it (up to `fuel` iterations), then take the single
filled child of the synthetic root as the true root, assign identifiers,
prune, and check validity; an invalid result raises (modelled as
`Except.error`) instead of being returned. -/
def learn_structure (cfg : Config Ctx L) (dataset : DataMatrix)
    (initial_scope : Option (List Nat)) (fuel : Nat) :
    Except String (List (ANode L) × Nat) :=
  let scope := initial_scope_of dataset initial_scope
  let σ := run cfg fuel (initState dataset scope)
  if σ.tasks.isEmpty then
    match σ.nodes with
    | [] => Except.error "missing root"
    | rt :: _ =>
      match rt.children.getD 0 none with
      | none => Except.error "root child not filled"
      | some cid =>
        let pruned := cfg.prune (cfg.assign_ids (σ.nodes, cid))
        match cfg.is_valid pruned with
        | (true, _) => Except.ok pruned
        | (false, err) => Except.error ("invalid spn: " ++ err)
  else
    Except.error "fuel exhausted"

/-- The argument assertions of `learn_structure` (lines 86-91): each of
`dataset`, `ds_context`, `split_rows`, `split_cols`, `create_leaf` and
`next_operation` may be `None` in Python; an `assert x is not None`
failure raises before the synthetic root or any task is created. -/
def learn_structure_checked (dataset : Option DataMatrix) (ds_context : Option Ctx)
    (split_rows : Option (SplitFn Ctx)) (split_cols : Option (SplitFn Ctx))
    (create_leaf : Option (DataMatrix → Ctx → List Nat → L))
    (next_op : Option PolicyFn)
    (assign_ids : List (ANode L) × Nat → List (ANode L) × Nat)
    (prune : List (ANode L) × Nat → List (ANode L) × Nat)
    (is_valid : List (ANode L) × Nat → Bool × String)
    (initial_scope : Option (List Nat)) (fuel : Nat) :
    Except String (List (ANode L) × Nat) :=
  match dataset with
  | none => Except.error "AssertionError"
  | some d =>
    match ds_context with
    | none => Except.error "AssertionError"
    | some c =>
      match split_rows with
      | none => Except.error "AssertionError"
      | some sr =>
        match split_cols with
        | none => Except.error "AssertionError"
        | some sc =>
          match create_leaf with
          | none => Except.error "AssertionError"
          | some cl =>
            match next_op with
            | none => Except.error "AssertionError"
            | some nop =>
              learn_structure
                ⟨c, sr, sc, cl, nop, assign_ids, prune, is_valid⟩
                d initial_scope fuel

/-- The weight/child well-formedness of `Sum` nodes: in a node arena,
every `Sum` node has as many weights as child slots. -/
def SumAligned (nodes : List (ANode L)) : Prop :=
  ∀ (i : Nat) (nd : ANode L), nodes[i]? = some nd → nd.kind = NodeKind.sumNode →
    nd.weights.length = nd.children.length

/-- A concrete collaborator set over trivial context/leaf types in which
both the row-split and the column-split collaborator always return
exactly one triple (the whole slice, the whole scope, proportion 1), the
policy is `get_next_operation` with a floor of 1, and the post-loop
collaborators are trivial. -/
def oneTripleConfig : Config Unit Unit :=
  ⟨(), fun d _ s => [(d, s, 1)], fun d _ s => [(d, s, 1)], fun _ _ _ => (),
   next_operation 1, id, id, fun _ => (true, "")⟩

/-- Like `oneTripleConfig`, but the row-split collaborator returns two
triples with proportions 3/10 and 7/10. -/
def twoTripleConfig : Config Unit Unit :=
  { oneTripleConfig with
      split_rows := fun d _ s => [(d, s, 3/10), (d, s, 7/10)] }

/-- A 2-row, 2-column slice in which both columns vary (no zero-variance
column) and whose row count exceeds the floor of `oneTripleConfig`. -/
def loopData : DataMatrix := [[0, 0], [1, 1]]

/-- The builder state reached while processing `loopData` over scope
`[0, 1]` against `oneTripleConfig`: the untouched synthetic root plus a
single task whose two flags are `nc` / `ni`. -/
def loopState (nc ni : Bool) : BState Unit :=
  ⟨[⟨NodeKind.prodNode, [], [none], []⟩], [⟨loopData, 0, 0, [0, 1], nc, ni⟩]⟩

/- ------------------------------------------------------------------ -/
/- Theorems                                                            -/
/- ------------------------------------------------------------------ -/

/-- Claim C7: for every scope of length 1 and every slice whose row
count is at most the configured floor, the policy returns `CREATE_LEAF`
with auxiliary parameter `none`, for all values of the five flags. -/
theorem univariate_minimal_instances_create_leaf (min_instances_slice : Nat)
    (data : DataMatrix) (scope : List Nat)
    (no_clusters no_independencies is_first cluster_first cluster_univariate : Bool)
    (h1 : scope.length = 1) (h2 : nRows data ≤ min_instances_slice) :
    next_operation min_instances_slice data scope
      no_clusters no_independencies is_first cluster_first cluster_univariate
      = (Operation.CREATE_LEAF, none) := by
  simp [next_operation, h1, h2]

theorem univariate_minimal_instances_create_leaf_witness :
    next_operation 5 [[1]] [0] true true true true true
      = (Operation.CREATE_LEAF, none) :=
  univariate_minimal_instances_create_leaf 5 [[1]] [0] true true true true true
    rfl (by decide)

/-- Claim C5: on a multi-column slice satisfying the shape invariant
(`nCols data = scope.length`) in which every column has zero variance,
the policy returns `NAIVE_FACTORIZATION` with auxiliary parameter
`none`. -/
theorem all_zero_variance_naive_factorization (min_instances_slice : Nat)
    (data : DataMatrix) (scope : List Nat)
    (no_clusters no_independencies is_first cluster_first cluster_univariate : Bool)
    (h1 : 1 < scope.length) (h2 : nCols data = scope.length)
    (h3 : ∀ j < scope.length, colConstant (getCol data j) = true) :
    next_operation min_instances_slice data scope
      no_clusters no_independencies is_first cluster_first cluster_univariate
      = (Operation.NAIVE_FACTORIZATION, none) := by
  have hne : ¬ scope.length = 1 := by omega
  have hfull : zero_variance_cols data scope.length = List.range scope.length := by
    refine List.filter_eq_self.mpr ?_
    intro a ha
    simpa using h3 a (List.mem_range.mp ha)
  have h0 : 0 < scope.length := by omega
  simp [next_operation, hne, hfull, h0, h2]

theorem all_zero_variance_naive_factorization_witness :
    next_operation 1 [[1, 2], [1, 2]] [0, 1] false false false true false
      = (Operation.NAIVE_FACTORIZATION, none) :=
  all_zero_variance_naive_factorization 1 [[1, 2], [1, 2]] [0, 1]
    false false false true false (by decide) rfl (by decide)

/-- Claim C6: on a multi-column slice satisfying the shape invariant in
which a strict non-empty subset of the first `len(scope)` columns has
zero variance, the policy returns `REMOVE_UNINFORMATIVE_FEATURES`, and
the auxiliary list holds exactly the scope-relative positions of the
zero-variance columns, in ascending order. -/
theorem partial_zero_variance_remove_uninformative (min_instances_slice : Nat)
    (data : DataMatrix) (scope : List Nat)
    (no_clusters no_independencies is_first cluster_first cluster_univariate : Bool)
    (h1 : 1 < scope.length) (h2 : nCols data = scope.length)
    (h3 : ∃ j, j < scope.length ∧ colConstant (getCol data j) = true)
    (h4 : ∃ j, j < scope.length ∧ colConstant (getCol data j) = false) :
    ∃ l, next_operation min_instances_slice data scope
          no_clusters no_independencies is_first cluster_first cluster_univariate
          = (Operation.REMOVE_UNINFORMATIVE_FEATURES, some l)
        ∧ List.Sorted (· < ·) l
        ∧ ∀ j, j ∈ l ↔ (j < scope.length ∧ colConstant (getCol data j) = true) := by
  obtain ⟨a, ha, hca⟩ := h3
  obtain ⟨b, hb, hcb⟩ := h4
  have hne : ¬ scope.length = 1 := by omega
  have hmem : a ∈ zero_variance_cols data scope.length := by
    refine List.mem_filter.mpr ⟨List.mem_range.mpr ha, ?_⟩
    simpa using hca
  have hpos : 0 < (zero_variance_cols data scope.length).length :=
    List.length_pos.mpr (List.ne_nil_of_mem hmem)
  have hlt : (zero_variance_cols data scope.length).length < scope.length := by
    refine Nat.lt_of_le_of_ne ?_ ?_
    · simpa using List.length_filter_le _ (List.range scope.length)
    · intro heq
      have hsub : zero_variance_cols data scope.length = List.range scope.length :=
        List.Sublist.eq_of_length (List.filter_sublist _) (by simpa using heq)
      have := List.filter_eq_self.mp hsub b (List.mem_range.mpr hb)
      simp [hcb] at this
  have hneq : ¬ (zero_variance_cols data scope.length).length = nCols data := by
    rw [h2]; omega
  refine ⟨zero_variance_cols data scope.length, ?_, ?_, ?_⟩
  · simp [next_operation, hne, hpos, hneq]
  · exact List.Pairwise.sublist (List.filter_sublist _) (List.sorted_lt_range _)
  · intro j
    simp [zero_variance_cols, List.mem_filter, List.mem_range, and_comm]

theorem partial_zero_variance_remove_uninformative_witness :
    ∃ l, next_operation 1 [[0, 5], [0, 6]] [0, 1] false false false true false
          = (Operation.REMOVE_UNINFORMATIVE_FEATURES, some l)
        ∧ List.Sorted (· < ·) l
        ∧ ∀ j, j ∈ l ↔ (j < ([0, 1] : List Nat).length
            ∧ colConstant (getCol [[0, 5], [0, 6]] j) = true) :=
  partial_zero_variance_remove_uninformative 1 [[0, 5], [0, 6]] [0, 1]
    false false false true false (by decide) rfl
    ⟨0, by decide⟩ ⟨1, by decide⟩

lemma step_loop_ff : step oneTripleConfig (loopState false false) = loopState true false := by
  decide

lemma step_loop_tf : step oneTripleConfig (loopState true false) = loopState false true := by
  decide

lemma step_loop_ft : step oneTripleConfig (loopState false true) = loopState true false := by
  decide

lemma loop_run_cases (n : Nat) :
    ∀ σ, (σ = loopState false false ∨ σ = loopState true false ∨ σ = loopState false true) →
      (run oneTripleConfig n σ = loopState false false
        ∨ run oneTripleConfig n σ = loopState true false
        ∨ run oneTripleConfig n σ = loopState false true) := by
  induction n with
  | zero => intro σ h; simpa [run] using h
  | succ n ih =>
    intro σ h
    rcases h with rfl | rfl | rfl
    · show run oneTripleConfig n (step oneTripleConfig (loopState false false)) = _ ∨ _ ∨ _
      rw [step_loop_ff]
      exact ih _ (Or.inr (Or.inl rfl))
    · show run oneTripleConfig n (step oneTripleConfig (loopState true false)) = _ ∨ _ ∨ _
      rw [step_loop_tf]
      exact ih _ (Or.inr (Or.inr rfl))
    · show run oneTripleConfig n (step oneTripleConfig (loopState false true)) = _ ∨ _ ∨ _
      rw [step_loop_ft]
      exact ih _ (Or.inr (Or.inl rfl))

/-- Claim C1: with row-split and column-split collaborators that each
always return exactly one triple, `learn_structure` does **not**
terminate: the single-result re-enqueues of lines 147 and 172 hard-code
the *other* flag back to `False`, so the seed task lineage cycles
between flags `(True, False)` and `(False, True)` forever, both flags
are never simultaneously true, the `NAIVE_FACTORIZATION` fallback is
never reached, and the worklist never drains — for no amount of fuel
does `learn_structure` return a result. -/
theorem single_triple_splits_never_drain (fuel : Nat) :
    (run oneTripleConfig fuel (initState loopData [0, 1])).tasks.length = 1
    ∧ learn_structure oneTripleConfig loopData (some [0, 1]) fuel
        = Except.error "fuel exhausted" := by
  have hrun := loop_run_cases fuel (loopState false false) (Or.inl rfl)
  have hinit : (initState loopData [0, 1] : BState Unit) = loopState false false := rfl
  constructor
  · rw [hinit]
    rcases hrun with he | he | he <;> rw [he] <;> rfl
  · simp only [learn_structure, initial_scope_of, Option.getD_some]
    rw [hinit]
    rcases hrun with he | he | he <;> rw [he] <;> rfl

/-- Claim C2: the single-triple `SPLIT_ROWS` re-enqueue does **not**
leave the no-independencies flag unchanged.  At a task with flags
`(no_clusters, no_independencies) = (false, true)` the policy picks
`SPLIT_ROWS`; the collaborator returns one triple; the re-enqueued task
keeps the slice, scope, parent and slot and no node is created — but its
flags are the hard-coded `(true, false)` of line 147, resetting the
incoming `no_independencies = true` to `false`. -/
theorem split_rows_single_triple_resets_other_flag :
    (⟨loopData, 0, 0, [0, 1], false, true⟩ : Task).no_independencies = true
    ∧ taskOperation oneTripleConfig ⟨loopData, 0, 0, [0, 1], false, true⟩
        = (Operation.SPLIT_ROWS, none)
    ∧ (oneTripleConfig.split_rows loopData () [0, 1]).length = 1
    ∧ step oneTripleConfig (loopState false true) = loopState true false
    ∧ (loopState true false).tasks.map (fun t => t.no_independencies) = [false] := by
  decide

/-- Claim C3: the `REMOVE_UNINFORMATIVE_FEATURES` handler enqueues the
remaining-columns group task with a scope made of scope-relative
positions, not original-dataset identifiers.  On a task with scope
`[2, 3]` whose column position 0 has zero variance, the single-column
task correctly gets scope `[scope[0]] = [2]`, but the rest-group task
gets scope `[1]` (the position, line 134 passes `rest_scope` itself)
instead of `[scope[1]] = [3]`. -/
theorem remove_uninformative_rest_scope_is_positions :
    step oneTripleConfig
        ⟨[⟨NodeKind.prodNode, [], [none], []⟩],
         [⟨[[0, 5], [0, 6]], 0, 0, [2, 3], false, false⟩]⟩
      = ⟨[⟨NodeKind.prodNode, [], [some 1], []⟩,
          ⟨NodeKind.prodNode, [2, 3], [none, none], []⟩],
         [⟨[[0], [0]], 1, 0, [2], true, true⟩,
          ⟨[[5], [6]], 1, 1, [1], true, true⟩]⟩
    ∧ ([1] : List Nat) ≠ [([2, 3] : List Nat).getD 1 0] := by
  decide

/-- Claim C9: if any of the dataset, the context, the row-split,
column-split or leaf-creation collaborators, or the policy is `None`,
`learn_structure` fails with the assertion error, for every fuel amount
and independently of everything else — i.e. before the synthetic root is
created and before any worklist task is processed. -/
theorem missing_argument_fails_immediately (dataset : Option DataMatrix)
    (ds_context : Option Ctx) (sr sc : Option (SplitFn Ctx))
    (cl : Option (DataMatrix → Ctx → List Nat → L)) (nop : Option PolicyFn)
    (ai pr : List (ANode L) × Nat → List (ANode L) × Nat)
    (iv : List (ANode L) × Nat → Bool × String)
    (iscope : Option (List Nat)) (fuel : Nat)
    (h : dataset = none ∨ ds_context = none ∨ sr = none ∨ sc = none
          ∨ cl = none ∨ nop = none) :
    learn_structure_checked dataset ds_context sr sc cl nop ai pr iv iscope fuel
      = Except.error "AssertionError" := by
  cases dataset <;> cases ds_context <;> cases sr <;> cases sc <;> cases cl <;> cases nop <;>
    simp_all [learn_structure_checked]

theorem missing_argument_fails_immediately_witness :
    learn_structure_checked (none : Option DataMatrix) (some ())
        (some fun d _ s => [(d, s, 1)]) (some fun d _ s => [(d, s, 1)])
        (some fun _ _ _ => ()) (some (next_operation 1))
        id id (fun _ => (true, "")) none 0
      = Except.error "AssertionError" :=
  missing_argument_fails_immediately none (some ())
    (some fun d _ s => [(d, s, 1)]) (some fun d _ s => [(d, s, 1)])
    (some fun _ _ _ => ()) (some (next_operation 1))
    id id (fun _ => (true, "")) none 0 (Or.inl rfl)

/-- Claim C10: inside the worklist loop the policy is always invoked
with `is_first` computed as "the task's parent is the synthetic root"
(arena index 0), `cluster_first = true` and `cluster_univariate = false`
(the call site never passes the latter two).  Consequently (i) the
policy call for any task is exactly that invocation, (ii) a
single-triple `SPLIT_ROWS` re-enqueue preserves the parent, so a
re-enqueued root task is still flagged as first, and (iii) with the
source policy a univariate-scope task always resolves to `CREATE_LEAF`
(the `cluster_univariate` override is never exercised). -/
theorem policy_call_flags :
    (∀ (cfg : Config Ctx L) (t : Task),
        taskOperation cfg t
          = cfg.next_op t.local_data t.scope t.no_clusters t.no_independencies
              (t.parent == 0) true false)
    ∧ (∀ (cfg : Config Ctx L) (σ : BState L) (t : Task) (rest : List Task)
          (ops : Option (List Nat)),
        σ.tasks = t :: rest → t.parent = 0 →
        taskOperation cfg t = (Operation.SPLIT_ROWS, ops) →
        (cfg.split_rows t.local_data cfg.ds_context t.scope).length = 1 →
        (step cfg σ).tasks
            = rest ++ [{ t with no_clusters := true, no_independencies := false }]
          ∧ ({ t with no_clusters := true, no_independencies := false } : Task).parent = 0)
    ∧ (∀ (minInst : Nat) (cfg : Config Ctx L) (t : Task),
        cfg.next_op = next_operation minInst → t.scope.length = 1 →
        (taskOperation cfg t).1 = Operation.CREATE_LEAF) := by
  refine ⟨fun cfg t => rfl, ?_, ?_⟩
  · intro cfg σ t rest ops hts hpar hop hlen
    obtain ⟨nodes, tasks⟩ := σ
    simp only at hts
    subst hts
    refine ⟨?_, hpar⟩
    simp only [step, hop, if_pos hlen]
  · intro minInst cfg t hnop h1
    rw [taskOperation, hnop]
    simp only [next_operation, h1, if_true, if_pos rfl]
    split <;> simp

theorem policy_call_flags_witness :
    (taskOperation oneTripleConfig ⟨[[5], [6]], 3, 0, [7], false, false⟩).1
      = Operation.CREATE_LEAF :=
  policy_call_flags.2.2 1 oneTripleConfig ⟨[[5], [6]], 3, 0, [7], false, false⟩ rfl rfl

/-- Claim C8: whenever `learn_structure` returns successfully, the
worklist has drained, the returned tree is the (filled) single child of
the synthetic root wrapper passed through `assign_ids` and then the
pruning transform, and the validity check succeeded on exactly the
returned (pruned) tree — an invalid tree is never returned, the failure
is an error instead. -/
theorem learn_structure_ok_implies_valid (cfg : Config Ctx L) (dataset : DataMatrix)
    (iscope : Option (List Nat)) (fuel : Nat) (res : List (ANode L) × Nat)
    (h : learn_structure cfg dataset iscope fuel = Except.ok res) :
    (cfg.is_valid res).1 = true
    ∧ (run cfg fuel (initState dataset (initial_scope_of dataset iscope))).tasks = []
    ∧ ∃ rt rest cid,
        (run cfg fuel (initState dataset (initial_scope_of dataset iscope))).nodes
          = rt :: rest
        ∧ rt.children.getD 0 none = some cid
        ∧ res = cfg.prune (cfg.assign_ids
            ((run cfg fuel (initState dataset (initial_scope_of dataset iscope))).nodes,
             cid)) := by
  simp only [learn_structure] at h
  split at h
  case isTrue hempty =>
    split at h
    case h_1 => exact absurd h (by simp)
    case h_2 rt rest hnodes =>
      split at h
      case h_1 => exact absurd h (by simp)
      case h_2 cid hcid =>
        split at h
        case h_1 snd hvalid =>
          rw [Except.ok.injEq] at h
          subst h
          refine ⟨by rw [hvalid], List.isEmpty_iff.mp hempty, rt, rest, cid, hnodes, hcid, rfl⟩
        case h_2 => exact absurd h (by simp)
  case isFalse => exact absurd h (by simp)

theorem learn_structure_ok_implies_valid_witness :
    (oneTripleConfig.is_valid
        ([⟨NodeKind.prodNode, [], [some 1], []⟩, ⟨NodeKind.leafNode (), [], [], []⟩], 1)).1
      = true
    ∧ (run oneTripleConfig 2 (initState [[0]] (initial_scope_of [[0]] none))).tasks = []
    ∧ ∃ rt rest cid,
        (run oneTripleConfig 2 (initState [[0]] (initial_scope_of [[0]] none))).nodes
          = rt :: rest
        ∧ rt.children.getD 0 none = some cid
        ∧ ([⟨NodeKind.prodNode, [], [some 1], []⟩, ⟨NodeKind.leafNode (), [], [], []⟩], 1)
          = oneTripleConfig.prune (oneTripleConfig.assign_ids
              ((run oneTripleConfig 2 (initState [[0]] (initial_scope_of [[0]] none))).nodes,
               cid)) :=
  learn_structure_ok_implies_valid oneTripleConfig [[0]] none 2
    ([⟨NodeKind.prodNode, [], [some 1], []⟩, ⟨NodeKind.leafNode (), [], [], []⟩], 1) rfl

lemma setChild_length (nodes : List (ANode L)) (p q c : Nat) :
    (setChild nodes p q c).length = nodes.length := by
  unfold setChild
  split <;> simp

lemma sumAligned_setChild (nodes : List (ANode L)) (p q c : Nat)
    (h : SumAligned nodes) : SumAligned (setChild nodes p q c) := by
  unfold setChild
  cases hnd : nodes[p]? with
  | none => exact h
  | some nd0 =>
    intro i nd hi hk
    by_cases hip : p = i
    · subst hip
      have hlt : p < nodes.length := (List.getElem?_eq_some_iff.mp hnd).1
      rw [List.getElem?_set_self hlt] at hi
      cases hi
      simp only at hk ⊢
      simpa using h p nd0 hnd hk
    · rw [List.getElem?_set_ne hip] at hi
      exact h i nd hi hk

lemma sumAligned_append (nodes : List (ANode L)) (node : ANode L)
    (h : SumAligned nodes)
    (hnode : node.kind = NodeKind.sumNode → node.weights.length = node.children.length) :
    SumAligned (nodes ++ [node]) := by
  intro i nd hi hk
  rcases Nat.lt_or_ge i nodes.length with hlt | hge
  · rw [List.getElem?_append_left hlt] at hi
    exact h i nd hi hk
  · rw [List.getElem?_append_right hge] at hi
    cases hv : i - nodes.length with
    | zero =>
      rw [hv] at hi
      simp only [List.getElem?_cons_zero, Option.some.injEq] at hi
      rw [← hi] at hk ⊢
      exact hnode hk
    | succ m =>
      rw [hv] at hi
      simp at hi

lemma sumAligned_step (cfg : Config Ctx L) (σ : BState L)
    (h : SumAligned σ.nodes) : SumAligned (step cfg σ).nodes := by
  cases hts : σ.tasks with
  | nil =>
    have hid : step cfg σ = σ := by simp only [step, hts]
    rw [hid]
    exact h
  | cons t rest =>
    rcases hop : taskOperation cfg t with ⟨op, params⟩
    cases op with
    | CREATE_LEAF =>
      simp only [step, hts, hop]
      exact sumAligned_append _ _ (sumAligned_setChild _ _ _ _ h) (by intro hk; simp at hk)
    | SPLIT_COLUMNS =>
      simp only [step, hts, hop]
      split
      · exact h
      · exact sumAligned_append _ _ (sumAligned_setChild _ _ _ _ h) (by intro hk; simp at hk)
    | SPLIT_ROWS =>
      simp only [step, hts, hop]
      split
      · exact h
      · refine sumAligned_append _ _ (sumAligned_setChild _ _ _ _ h) ?_
        intro _
        simp
    | NAIVE_FACTORIZATION =>
      simp only [step, hts, hop]
      exact sumAligned_append _ _ (sumAligned_setChild _ _ _ _ h) (by intro hk; simp at hk)
    | REMOVE_UNINFORMATIVE_FEATURES =>
      simp only [step, hts, hop]
      exact sumAligned_append _ _ (sumAligned_setChild _ _ _ _ h) (by intro hk; simp at hk)

lemma sumAligned_run (cfg : Config Ctx L) :
    ∀ (n : Nat) (σ : BState L), SumAligned σ.nodes → SumAligned (run cfg n σ).nodes := by
  intro n
  induction n with
  | zero => intro σ h; exact h
  | succ n ih => intro σ h; exact ih _ (sumAligned_step cfg σ h)

lemma sumAligned_initState (dataset : DataMatrix) (scope : List Nat) :
    SumAligned ((initState dataset scope : BState L).nodes) := by
  intro i nd hi hk
  cases i with
  | zero =>
    simp only [initState, List.getElem?_cons_zero, Option.some.injEq] at hi
    rw [← hi] at hk
    simp at hk
  | succ m =>
    simp [initState] at hi

lemma getElem?_append_singleton_of_length {α : Type} {l : List α} {a : α} {n : Nat}
    (h : n = l.length) : (l ++ [a])[n]? = some a := by
  subst h
  exact List.getElem?_concat_length l a

/-- Claim C4: (i) in every state the builder can reach, every `Sum` node
has exactly as many weights as child slots; (ii) when a `SPLIT_ROWS`
task receives `k ≠ 1` triples, the created `Sum` node carries the task's
scope, `k` placeholder children and, in order, the proportions of the
triples as weights, and the `j`-th enqueued follow-up task carries the
`j`-th triple's row-subset slice and targets exactly child slot `j` of
that node — so `weights[j]` and `children[j]` come from the same triple. -/
theorem sum_node_weight_child_alignment (cfg : Config Ctx L) :
    (∀ (dataset : DataMatrix) (scope : List Nat) (n i : Nat) (nd : ANode L),
        ((run cfg n (initState dataset scope)).nodes)[i]? = some nd →
        nd.kind = NodeKind.sumNode →
        nd.weights.length = nd.children.length)
    ∧ (∀ (σ : BState L) (t : Task) (rest : List Task) (ops : Option (List Nat)),
        σ.tasks = t :: rest →
        taskOperation cfg t = (Operation.SPLIT_ROWS, ops) →
        (cfg.split_rows t.local_data cfg.ds_context t.scope).length ≠ 1 →
        ((step cfg σ).nodes)[σ.nodes.length]?
            = some ⟨NodeKind.sumNode, t.scope,
                List.replicate (cfg.split_rows t.local_data cfg.ds_context t.scope).length
                  none,
                (cfg.split_rows t.local_data cfg.ds_context t.scope).map (fun s => s.2.2)⟩
          ∧ (step cfg σ).tasks
            = rest ++ (cfg.split_rows t.local_data cfg.ds_context t.scope).enum.map
                (fun p => (⟨p.2.1, σ.nodes.length, p.1, t.scope, false, false⟩ : Task))) := by
  constructor
  · intro dataset scope n i nd hi hk
    exact sumAligned_run cfg n _ (sumAligned_initState dataset scope) i nd hi hk
  · intro σ t rest ops hts hop hlen
    obtain ⟨nodes, tasks⟩ := σ
    simp only at hts
    subst hts
    constructor
    · simp only [step, hop, if_neg hlen]
      exact getElem?_append_singleton_of_length
        (setChild_length nodes t.parent t.children_pos nodes.length).symm
    · simp only [step, hop, if_neg hlen]

theorem sum_node_weight_child_alignment_witness :
    ((step twoTripleConfig (initState [[0, 0], [1, 1]] [0, 1])).nodes)[1]?
      = some ⟨NodeKind.sumNode, [0, 1], [none, none], [3/10, 7/10]⟩
    ∧ (step twoTripleConfig (initState [[0, 0], [1, 1]] [0, 1])).tasks
      = [⟨[[0, 0], [1, 1]], 1, 0, [0, 1], false, false⟩,
         ⟨[[0, 0], [1, 1]], 1, 1, [0, 1], false, false⟩] :=
  (sum_node_weight_child_alignment twoTripleConfig).2
    (initState [[0, 0], [1, 1]] [0, 1]) ⟨[[0, 0], [1, 1]], 0, 0, [0, 1], false, false⟩
    [] none rfl rfl (by decide)

end SPFlow
